import Mathlib

/-!
Verification of the Puppy Bowl roster application (`src/script.js`).

The development is a shallow embedding of the script in Lean 4, in two layers:

* an API-client layer (`fetchAllPlayers`, `fetchSinglePlayer`, `addNewPlayer`,
  `removePlayer`) over a JavaScript-value model (`JsValue`), where the `fetch`
  builtin is an environment `Request → Except JsErr Response`, `response.json()`
  is the `jsonResult` field of a response, and property access `x.f` follows the
  JavaScript rule: it throws a TypeError on `null`/`undefined` receivers and
  yields `undefined` for missing fields; `try`/`catch` wrapping turns any thrown
  error into a logged message plus an `undefined` return value;

* a DOM layer, where the `<main>` container's content is a list of structured
  nodes (`Node`), event handlers attached by the renderers are data
  (`Handler`) carrying exactly what the JavaScript closures capture, and
  running a handler (`runHandler`, `submitAction`, `dispatchSubmit`) produces
  the new DOM state together with a trace of the observable effects
  (`Event`): API calls issued, renders performed, inputs cleared.
-/

namespace PuppyBowl

/-! ## Data model

A player record as rendered by the script: `id`, `name`, `breed`, `imageUrl`
(`src/script.js` reads exactly these fields in the renderers). -/

structure Player where
  id : Int
  name : String
  breed : String
  imageUrl : String
deriving DecidableEq, Repr

/-- The partial record assembled by the create-form submit handler
(`script.js` lines 218-222): `{name, breed, imageUrl}`. -/
structure NewPlayer where
  name : String
  breed : String
  imageUrl : String
deriving DecidableEq, Repr

/-! ## DOM model -/

/-- Event handlers attached by the renderers, as data carrying what the
JavaScript closures capture:

* `removeClick player` — the listener on a card's remove button
  (`script.js` lines 146-149), closing over `player`;
* `detailClick player` — the listener on a card's detail button
  (lines 153-156), closing over `player`;
* `backClick` — the listener on the single-player back button
  (lines 194-197), closing over nothing. -/
inductive Handler where
  | removeClick (player : Player)
  | detailClick (player : Player)
  | backClick
deriving DecidableEq, Repr

/-- Structured content of the `<main>` container: the elements produced by the
innerHTML templates of `renderAllPlayers` and `renderSinglePlayer`. -/
inductive Node where
  | h3 (text : String)
  | h4 (text : String)
  | para (text : String)
  | img (src : String) (alt : String)
  | button (cls : String) (dataId : Option String) (label : String) (onClick : Handler)
  | div (classes : List String) (children : List Node)
deriving Repr

/-- State of the `<form>` container: the three text inputs and the number of
`submit` listeners registered on it (`addEventListener` never replaces a
previously registered listener, it adds one). All submit listeners are the
same closure over the global `formContainer`, so a count suffices. -/
structure FormState where
  nameVal : String
  breedVal : String
  imageUrlVal : String
  submitListeners : Nat
deriving Repr

/-- The document state the script manipulates: the `<main>` container and the
`<form>` container. -/
structure Dom where
  main : List Node
  form : FormState
deriving Repr

/-! ## Renderers (`script.js` lines 116-198) -/

/-- The card built for one player by the loop body of `renderAllPlayers`
(`script.js` lines 129-156): a `div.player-card` containing the name heading,
the id paragraph, the image with the name as alt text, the remove button (with
`data-id`) and the detail button, each with its click listener. -/
def playerCard (p : Player) : Node :=
  Node.div ["player-card"] [
    Node.h4 p.name,
    Node.para (toString p.id),
    Node.img p.imageUrl p.name,
    Node.button "remove-button" (some (toString p.id)) "Remove from Roster" (Handler.removeClick p),
    Node.button "detail-button" none "See Details" (Handler.detailClick p)
  ]

/-- `renderAllPlayers` (`script.js` lines 116-158). `none` models a `null` or
`undefined` argument (the `!playerList` check). On an absent or empty list the
container is replaced by the no-players heading; otherwise the container is
cleared (`innerHTML = ""`) and one card per player is appended in order. -/
def renderAllPlayers (playerList : Option (List Player)) (dom : Dom) : Dom :=
  match playerList with
  | none => { dom with main := [Node.h3 "No Players Found!"] }
  | some l =>
    if l.length = 0 then
      { dom with main := [Node.h3 "No Players Found!"] }
    else
      { dom with main := l.foldl (fun acc p => acc ++ [playerCard p]) [] }

/-- The expanded card built by `renderSinglePlayer` (`script.js` lines
181-191): a `div.single-player` holding an inner `div` with name, id, breed
and image, next to the back button with its click listener. -/
def singlePlayerCard (p : Player) : Node :=
  Node.div ["single-player"] [
    Node.div [] [
      Node.h4 p.name,
      Node.para (toString p.id),
      Node.para p.breed,
      Node.img p.imageUrl p.name
    ],
    Node.button "back-button" none "Back to all Players" Handler.backClick
  ]

/-- `renderSinglePlayer` (`script.js` lines 173-198). `none` models a `null`
or `undefined` argument (the `!player` check). -/
def renderSinglePlayer (player : Option Player) (dom : Dom) : Dom :=
  match player with
  | none => { dom with main := [Node.h3 "No Player Found!"] }
  | some p => { dom with main := [singlePlayerCard p] }

/-! ## Observations on rendered nodes

Generic observation functions used to state what a rendered card shows.
A card produced by the templates is a single-level `div`, so observations
inspect a node's immediate children. -/

/-- The immediate children of a node (`[]` for non-`div` nodes). -/
def childNodes (n : Node) : List Node :=
  match n with
  | Node.div _ cs => cs
  | _ => []

/-- The class list of a node (`[]` for nodes without classes). -/
def nodeClasses (n : Node) : List String :=
  match n with
  | Node.div cs _ => cs
  | _ => []

/-- The texts of the `h4` headings among a node's children. -/
def headingsOf (n : Node) : List String :=
  (childNodes n).filterMap fun c =>
    match c with
    | Node.h4 t => some t
    | _ => none

/-- The texts of the `p` paragraphs among a node's children. -/
def parasOf (n : Node) : List String :=
  (childNodes n).filterMap fun c =>
    match c with
    | Node.para t => some t
    | _ => none

/-- The `(src, alt)` pairs of the images among a node's children. -/
def imgsOf (n : Node) : List (String × String) :=
  (childNodes n).filterMap fun c =>
    match c with
    | Node.img src alt => some (src, alt)
    | _ => none

/-- The `(data-id, label, listener)` triples of the buttons with the given
class among a node's children. -/
def buttonsWithClass (cls : String) (n : Node) : List (Option String × String × Handler) :=
  (childNodes n).filterMap fun c =>
    match c with
    | Node.button c2 dataId label onClick =>
      if c2 = cls then some (dataId, label, onClick) else none
    | _ => none

/-- The number of `div.player-card` elements in a container's content. -/
def countCards (ns : List Node) : Nat :=
  (ns.filter fun n =>
    match n with
    | Node.div cs _ => cs.contains "player-card"
    | _ => false).length

/-! ## Handler semantics

Running a handler yields the new document state and a trace of observable
effects. -/

/-- Observable effects of running an event handler, in order. -/
inductive Event where
  | preventDefault
  | apiCreate (fields : NewPlayer)
  | apiList
  | apiDelete (id : Int)
  | renderList (players : Option (List Player))
  | clearInputs
deriving DecidableEq, Repr

/-- The environment a handler interacts with: the (decoded) result that the
API client's `fetchAllPlayers` delivers to the renderer boundary — an array of
players on success, absent (`none`) when the client caught a failure. -/
structure ApiEnv where
  listPlayers : Option (List Player)

/-- Semantics of the click listeners (`script.js` lines 146-149, 153-156,
194-197):

* the remove listener calls `preventDefault` and fires `removePlayer(player.id)`
  without chaining anything else — the document is left unchanged;
* the detail listener calls `preventDefault` and `renderSinglePlayer(player)`;
* the back listener awaits `fetchAllPlayers()` and renders the result with
  `renderAllPlayers`. -/
def runHandler (h : Handler) (env : ApiEnv) (dom : Dom) : Dom × List Event :=
  match h with
  | Handler.removeClick p => (dom, [Event.preventDefault, Event.apiDelete p.id])
  | Handler.detailClick p => (renderSinglePlayer (some p) dom, [Event.preventDefault])
  | Handler.backClick =>
    (renderAllPlayers env.listPlayers dom, [Event.apiList, Event.renderList env.listPlayers])

/-! ## Create form controller (`script.js` lines 206-238) -/

/-- `renderNewPlayerForm` (`script.js` lines 206-238): replaces the form's
innerHTML with three fresh (hence empty) inputs and the submit button, and
registers one more `submit` listener on the form container. -/
def renderNewPlayerForm (dom : Dom) : Dom :=
  { dom with form := { nameVal := "", breedVal := "", imageUrlVal := "",
                       submitListeners := dom.form.submitListeners + 1 } }

/-- The body of the submit listener (`script.js` lines 215-234): prevent the
default navigation, assemble `playerData` from the current input values, await
`addNewPlayer(playerData)`, await `fetchAllPlayers()`, render the result with
`renderAllPlayers`, then clear the three inputs. -/
def submitAction (env : ApiEnv) (dom : Dom) : Dom × List Event :=
  let playerData : NewPlayer :=
    { name := dom.form.nameVal, breed := dom.form.breedVal, imageUrl := dom.form.imageUrlVal }
  let players := env.listPlayers
  let dom1 := renderAllPlayers players dom
  let dom2 := { dom1 with form := { dom1.form with nameVal := "", breedVal := "", imageUrlVal := "" } }
  (dom2, [Event.preventDefault, Event.apiCreate playerData, Event.apiList,
          Event.renderList players, Event.clearInputs])

/-- Run `k` submit listeners in order, each on the state left by the previous
one, concatenating their effect traces. -/
def runListeners (env : ApiEnv) : Nat → Dom → Dom × List Event
  | 0, dom => (dom, [])
  | Nat.succ k, dom =>
    let step := submitAction env dom
    let rest := runListeners env k step.1
    (rest.1, step.2 ++ rest.2)

/-- Dispatching one `submit` event on the form runs every registered listener
once, in registration order. -/
def dispatchSubmit (env : ApiEnv) (dom : Dom) : Dom × List Event :=
  runListeners env dom.form.submitListeners dom

/-- Number of events in a trace satisfying `p`. -/
def countEv (p : Event → Bool) (tr : List Event) : Nat :=
  (tr.filter p).length

/-- Recognizer for `apiCreate` events. -/
def isCreateEv (e : Event) : Bool :=
  match e with
  | Event.apiCreate _ => true
  | _ => false

/-- Recognizer for `apiList` events. -/
def isListEv (e : Event) : Bool :=
  match e with
  | Event.apiList => true
  | _ => false

/-- Recognizer for `renderList` events. -/
def isRenderEv (e : Event) : Bool :=
  match e with
  | Event.renderList _ => true
  | _ => false

/-! ## JavaScript value model for the API client -/

/-- JavaScript values as they flow through the API client: `undefined`,
`null`, booleans, numbers, strings, arrays and plain objects. -/
inductive JsValue where
  | undef
  | null
  | bool (b : Bool)
  | num (n : Int)
  | str (s : String)
  | arr (elems : List JsValue)
  | obj (fields : List (String × JsValue))
deriving Repr

/-- Errors that a step inside a `try` block can throw: a rejected `fetch`
(network failure), a rejected `response.json()` (decoding failure), or a
`TypeError` from accessing a property of `null`/`undefined`. -/
inductive JsErr where
  | networkError (msg : String)
  | decodeError (msg : String)
  | typeError (msg : String)
deriving DecidableEq, Repr

/-- First field with the given key, as JavaScript object lookup. -/
def lookupField (fields : List (String × JsValue)) (key : String) : Option JsValue :=
  match fields with
  | [] => none
  | (k, v) :: rest => if k = key then some v else lookupField rest key

/-- JavaScript property access `v.key`: throws a `TypeError` when the receiver
is `null` or `undefined`; yields the field's value, or `undefined` when the
field is missing; on an array, `length` is the element count; on other
primitives, any access yields `undefined`. -/
def getProp (v : JsValue) (key : String) : Except JsErr JsValue :=
  match v with
  | JsValue.undef => Except.error (JsErr.typeError ("cannot read properties of undefined (reading " ++ key ++ ")"))
  | JsValue.null => Except.error (JsErr.typeError ("cannot read properties of null (reading " ++ key ++ ")"))
  | JsValue.obj fields =>
    Except.ok (match lookupField fields key with
      | some w => w
      | none => JsValue.undef)
  | JsValue.arr elems =>
    if key = "length" then Except.ok (JsValue.num elems.length) else Except.ok JsValue.undef
  | _ => Except.ok JsValue.undef

/-- One escaped character of a JSON string literal. -/
def jsonEscapeChar (c : Char) : String :=
  if c = '"' then "\\\"" else if c = '\\' then "\\\\" else String.singleton c

/-- Escape the characters of a JSON string literal. -/
def jsonEscape (s : String) : String :=
  String.join (s.toList.map jsonEscapeChar)

/-- `JSON.stringify`: `undefined` serializes to no string at all (`none`);
inside arrays it becomes `null`, inside objects the field is dropped. -/
def jsonStringify (v : JsValue) : Option String :=
  match v with
  | JsValue.undef => none
  | JsValue.null => some "null"
  | JsValue.bool b => some (cond b "true" "false")
  | JsValue.num n => some (toString n)
  | JsValue.str s => some ("\"" ++ jsonEscape s ++ "\"")
  | JsValue.arr elems =>
    some ("[" ++ String.intercalate ","
      (elems.attach.map fun e => (jsonStringify e.1).getD "null") ++ "]")
  | JsValue.obj fields =>
    some ("\x7b" ++ String.intercalate ","
      (fields.attach.filterMap fun kv =>
        (jsonStringify kv.1.2).map fun sv => "\"" ++ jsonEscape kv.1.1 ++ "\":" ++ sv) ++ "\x7d")
decreasing_by
  · obtain ⟨x, hmem⟩ := e
    have h := List.sizeOf_lt_of_mem hmem
    simp only [JsValue.arr.sizeOf_spec]
    omega
  · obtain ⟨⟨a, b⟩, hmem⟩ := kv
    have h := List.sizeOf_lt_of_mem hmem
    simp only [Prod.mk.sizeOf_spec] at h
    simp only [JsValue.obj.sizeOf_spec]
    omega

/-! ## HTTP model -/

/-- A request as built by the script's `fetch` calls: URL, method (`"GET"`
when no options object is passed), optional body, headers. -/
structure Request where
  url : String
  method : String
  body : Option String
  headers : List (String × String)
deriving DecidableEq, Repr

/-- A response: its status code and the outcome of `response.json()` —
a JavaScript value, or a rejection on a body that fails to decode. -/
structure Response where
  status : Nat
  jsonResult : Except JsErr JsValue

/-- The `fetch` builtin, abstracted: maps a request to a response, or to a
rejection on transport failure. -/
def FetchEnv : Type :=
  Request → Except JsErr Response

/-! ## API client (`script.js` lines 3-93) -/

/-- The cohort segment of the base URL (`script.js` line 3). -/
def cohortName : String := "2406-FTB-MT-WEB-PT"

/-- The base URL (`script.js` line 4). -/
def API_URL : String := "https://fsa-puppy-bowl.herokuapp.com/api/" ++ cohortName

/-- A plain `GET` request, as `fetch(url)` with no options. -/
def getRequest (url : String) : Request :=
  { url := url, method := "GET", body := none, headers := [] }

/-- The contextual message `fetchAllPlayers` logs on failure
(`script.js` line 23). -/
def fetchAllPlayersLog : String := "Uh oh, trouble fetching players!"

/-- The `try` block of `fetchAllPlayers` (`script.js` lines 15-21):
`fetch(API_URL + "/players")`, then `response.json()`, then
`result.data.players`. -/
def fetchAllPlayersBody (env : FetchEnv) : Except JsErr JsValue := do
  let response ← env (getRequest (API_URL ++ "/players"))
  let result ← response.jsonResult
  let d ← getProp result "data"
  getProp d "players"

/-- `fetchAllPlayers` (`script.js` lines 14-25): the `try` block wrapped by
`catch`, which logs the contextual message and lets the function return
`undefined`. The result pairs the returned value with the log output. -/
def fetchAllPlayers (env : FetchEnv) : JsValue × List String :=
  match fetchAllPlayersBody env with
  | Except.ok v => (v, [])
  | Except.error _ => (JsValue.undef, [fetchAllPlayersLog])

/-- The contextual message `fetchSinglePlayer` logs on failure
(`script.js` line 42). -/
def fetchSinglePlayerLog (playerId : Int) : String :=
  "Oh no, trouble fetching player #" ++ toString playerId ++ "!"

/-- The `try` block of `fetchSinglePlayer` (`script.js` lines 34-40):
`fetch(API_URL + "/players/" + playerId)`, then `response.json()`, then
`result.data`. -/
def fetchSinglePlayerBody (playerId : Int) (env : FetchEnv) : Except JsErr JsValue := do
  let response ← env (getRequest (API_URL ++ "/players/" ++ toString playerId))
  let result ← response.jsonResult
  getProp result "data"

/-- `fetchSinglePlayer` (`script.js` lines 33-44): the `try` block wrapped by
`catch`, which logs the contextual message and lets the function return
`undefined`. -/
def fetchSinglePlayer (playerId : Int) (env : FetchEnv) : JsValue × List String :=
  match fetchSinglePlayerBody playerId env with
  | Except.ok v => (v, [])
  | Except.error _ => (JsValue.undef, [fetchSinglePlayerLog playerId])

/-- The contextual message `addNewPlayer` logs on failure
(`script.js` line 70). -/
def addNewPlayerLog : String := "Oops, something went wrong with adding that player!"

/-- The request `addNewPlayer` issues (`script.js` lines 56-65): `POST` to
`API_URL + "/players"` with `JSON.stringify(playerObj)` as body and the
`Content-Type: application/json` header. -/
def addNewPlayerRequest (playerObj : JsValue) : Request :=
  { url := API_URL ++ "/players", method := "POST",
    body := jsonStringify playerObj,
    headers := [("Content-Type", "application/json")] }

/-- The `try` block of `addNewPlayer` (`script.js` lines 54-68): the `POST`
request, then `response.json()`, whose result is returned whole. -/
def addNewPlayerBody (playerObj : JsValue) (env : FetchEnv) : Except JsErr JsValue := do
  let response ← env (addNewPlayerRequest playerObj)
  response.jsonResult

/-- `addNewPlayer` (`script.js` lines 53-72): the `try` block wrapped by
`catch`, which logs the contextual message and lets the function return
`undefined`. -/
def addNewPlayer (playerObj : JsValue) (env : FetchEnv) : JsValue × List String :=
  match addNewPlayerBody playerObj env with
  | Except.ok v => (v, [])
  | Except.error _ => (JsValue.undef, [addNewPlayerLog])

/-- The contextual message `removePlayer` logs on failure
(`script.js` lines 88-91). -/
def removePlayerLog (playerId : Int) : String :=
  "Whoops, trouble removing player #" ++ toString playerId ++ " from the roster!"

/-- The request `removePlayer` issues (`script.js` lines 83-86): `DELETE` to
`API_URL + "/players/" + playerId`. -/
def removePlayerRequest (playerId : Int) : Request :=
  { url := API_URL ++ "/players/" ++ toString playerId, method := "DELETE",
    body := none, headers := [] }

/-- `removePlayer` (`script.js` lines 80-93): issues the `DELETE` request and
never reads the response; it returns `undefined` in every case, logging the
contextual message when the request throws. -/
def removePlayer (playerId : Int) (env : FetchEnv) : JsValue × List String :=
  match env (removePlayerRequest playerId) with
  | Except.ok _ => (JsValue.undef, [])
  | Except.error _ => (JsValue.undef, [removePlayerLog playerId])

/-! ## Helper lemmas -/

/-- Appending one card per player with `foldl` is mapping `playerCard` after
the initial content. -/
lemma foldl_snoc_playerCard (l : List Player) (init : List Node) :
    l.foldl (fun acc p => acc ++ [playerCard p]) init = init ++ l.map playerCard := by
  induction l generalizing init with
  | nil => simp
  | cons p rest ih =>
    rw [List.foldl_cons, ih]
    simp

/-- On a non-empty list, `renderAllPlayers` leaves the container holding one
card per player, in order. -/
lemma renderAllPlayers_main_of_ne_nil (l : List Player) (dom : Dom) (h : l ≠ []) :
    (renderAllPlayers (some l) dom).main = l.map playerCard := by
  have hlen : ¬ l.length = 0 := by simpa using h
  simp [renderAllPlayers, hlen, foldl_snoc_playerCard]

/-- `countEv` distributes over trace concatenation. -/
lemma countEv_append (p : Event → Bool) (a b : List Event) :
    countEv p (a ++ b) = countEv p a + countEv p b := by
  simp [countEv, List.filter_append]

/-- If one submit-listener run contributes exactly one event matched by `p`,
then `k` listener runs contribute exactly `k`. -/
lemma countEv_runListeners (env : ApiEnv) (p : Event → Bool)
    (hp : ∀ dom, countEv p (submitAction env dom).2 = 1) :
    ∀ (k : Nat) (dom : Dom), countEv p (runListeners env k dom).2 = k := by
  intro k
  induction k with
  | zero => intro dom; rfl
  | succ k ih =>
    intro dom
    have hstep : (runListeners env (Nat.succ k) dom).2 =
        (submitAction env dom).2 ++ (runListeners env k (submitAction env dom).1).2 := rfl
    rw [hstep, countEv_append, hp, ih]
    omega

/-- Each call to `renderNewPlayerForm` adds one submit listener and removes
none. -/
lemma iterate_renderNewPlayerForm_listeners (k : Nat) (dom : Dom) :
    (renderNewPlayerForm^[k] dom).form.submitListeners = dom.form.submitListeners + k := by
  induction k generalizing dom with
  | zero => simp
  | succ k ih =>
    rw [Function.iterate_succ_apply, ih]
    simp [renderNewPlayerForm]
    omega

/-! ## Claim theorems -/

/-- Claim C1: for every non-empty array of N player records passed to
`renderAllPlayers`, the main container ends up containing exactly N cards,
one per record in sequence order, each a `div.player-card` showing that
record's name and id, an image whose alt text is the record's name, exactly
one remove button wired to that record (and carrying its id as `data-id`),
and exactly one details button wired to that record. -/
theorem renderAllPlayers_renders_each_record (ps : List Player) (dom : Dom) (h : ps ≠ []) :
    (renderAllPlayers (some ps) dom).main.length = ps.length ∧
    ∀ i, i < ps.length →
      ∃ p card, ps[i]? = some p ∧ (renderAllPlayers (some ps) dom).main[i]? = some card ∧
        nodeClasses card = ["player-card"] ∧
        headingsOf card = [p.name] ∧
        parasOf card = [toString p.id] ∧
        imgsOf card = [(p.imageUrl, p.name)] ∧
        buttonsWithClass "remove-button" card =
          [(some (toString p.id), "Remove from Roster", Handler.removeClick p)] ∧
        buttonsWithClass "detail-button" card =
          [(none, "See Details", Handler.detailClick p)] := by
  have hmain := renderAllPlayers_main_of_ne_nil ps dom h
  constructor
  · rw [hmain, List.length_map]
  · intro i hi
    refine ⟨ps[i], playerCard ps[i], List.getElem?_eq_getElem hi, ?_, rfl, rfl, rfl, rfl, ?_, ?_⟩
    · rw [hmain]
      simp [List.getElem?_eq_getElem, hi]
    · simp [buttonsWithClass, childNodes, playerCard]
    · simp [buttonsWithClass, childNodes, playerCard]

/-- Witness for C1 at a concrete two-player list and an empty document. -/
theorem renderAllPlayers_renders_each_record_witness :
    ([⟨1, "Rex", "Labrador", "http://x/rex.png"⟩,
      ⟨2, "Spot", "Beagle", "http://x/spot.png"⟩] : List Player) ≠ [] ∧
    ((renderAllPlayers
        (some [⟨1, "Rex", "Labrador", "http://x/rex.png"⟩,
               ⟨2, "Spot", "Beagle", "http://x/spot.png"⟩])
        { main := [], form := { nameVal := "", breedVal := "", imageUrlVal := "",
                                submitListeners := 0 } }).main.length =
      ([⟨1, "Rex", "Labrador", "http://x/rex.png"⟩,
        ⟨2, "Spot", "Beagle", "http://x/spot.png"⟩] : List Player).length ∧
     ∀ i, i < ([⟨1, "Rex", "Labrador", "http://x/rex.png"⟩,
                ⟨2, "Spot", "Beagle", "http://x/spot.png"⟩] : List Player).length →
       ∃ p card,
         ([⟨1, "Rex", "Labrador", "http://x/rex.png"⟩,
           ⟨2, "Spot", "Beagle", "http://x/spot.png"⟩] : List Player)[i]? = some p ∧
         (renderAllPlayers
            (some [⟨1, "Rex", "Labrador", "http://x/rex.png"⟩,
                   ⟨2, "Spot", "Beagle", "http://x/spot.png"⟩])
            { main := [], form := { nameVal := "", breedVal := "", imageUrlVal := "",
                                    submitListeners := 0 } }).main[i]? = some card ∧
         nodeClasses card = ["player-card"] ∧
         headingsOf card = [p.name] ∧
         parasOf card = [toString p.id] ∧
         imgsOf card = [(p.imageUrl, p.name)] ∧
         buttonsWithClass "remove-button" card =
           [(some (toString p.id), "Remove from Roster", Handler.removeClick p)] ∧
         buttonsWithClass "detail-button" card =
           [(none, "See Details", Handler.detailClick p)]) :=
  ⟨by decide, renderAllPlayers_renders_each_record _ _ (by decide)⟩

/-- Claim C4: clicking a card's remove button calls `preventDefault` and fires
the API client's delete operation with that record's id, and nothing else: no
list re-fetch or re-render is chained, and the document — in particular the
main container — is left exactly as it was. -/
theorem removeClick_fire_and_forget (p : Player) (env : ApiEnv) (dom : Dom) :
    runHandler (Handler.removeClick p) env dom =
      (dom, [Event.preventDefault, Event.apiDelete p.id]) := rfl

/-- Claim C5: each renderer handles absent input defensively:
`renderAllPlayers` on an absent (`none`) or empty list replaces the main
container with the no-players heading and renders no cards, and
`renderSinglePlayer` on an absent record replaces it with the no-player
heading; both are total functions, so neither fails. -/
theorem renderers_handle_absent_input (dom : Dom) :
    (renderAllPlayers none dom).main = [Node.h3 "No Players Found!"] ∧
    (renderAllPlayers (some []) dom).main = [Node.h3 "No Players Found!"] ∧
    countCards (renderAllPlayers none dom).main = 0 ∧
    countCards (renderAllPlayers (some []) dom).main = 0 ∧
    (renderSinglePlayer none dom).main = [Node.h3 "No Player Found!"] :=
  ⟨rfl, rfl, rfl, rfl, rfl⟩

/-- Claim C6: for every present player record, `renderSinglePlayer` replaces
the main container with a single expanded card showing the record's name,
identifier, breed and image, plus a back button whose handler re-fetches the
full list and passes the result to `renderAllPlayers`. -/
theorem renderSinglePlayer_expanded_card (p : Player) (env : ApiEnv) (dom : Dom) :
    ∃ card inner,
      (renderSinglePlayer (some p) dom).main = [card] ∧
      childNodes card =
        [inner, Node.button "back-button" none "Back to all Players" Handler.backClick] ∧
      headingsOf inner = [p.name] ∧
      parasOf inner = [toString p.id, p.breed] ∧
      imgsOf inner = [(p.imageUrl, p.name)] ∧
      runHandler Handler.backClick env dom =
        (renderAllPlayers env.listPlayers dom,
         [Event.apiList, Event.renderList env.listPlayers]) :=
  ⟨singlePlayerCard p,
   Node.div [] [Node.h4 p.name, Node.para (toString p.id), Node.para p.breed,
                Node.img p.imageUrl p.name],
   rfl, rfl, rfl, rfl, rfl, rfl⟩

/-- Claim C8: rendering the same sequence twice in succession leaves the
document in exactly the state one call produces — each call fully replaces
the main container's prior content, so repetition duplicates nothing. -/
theorem renderAllPlayers_idempotent (ps : Option (List Player)) (dom : Dom) :
    renderAllPlayers ps (renderAllPlayers ps dom) = renderAllPlayers ps dom := by
  cases ps with
  | none => rfl
  | some l =>
    by_cases hl : l.length = 0 <;> simp [renderAllPlayers, hl]

/-- Claim C3: the submit handler of the create form performs, in order:
prevent the default navigation, assemble the partial record from the three
current input values, call the create operation with exactly that record,
then call the list operation and pass its result to `renderAllPlayers`, then
clear all three input fields to the empty string. -/
theorem submitAction_sequence (env : ApiEnv) (dom : Dom) :
    (submitAction env dom).2 =
      [Event.preventDefault,
       Event.apiCreate { name := dom.form.nameVal, breed := dom.form.breedVal,
                         imageUrl := dom.form.imageUrlVal },
       Event.apiList, Event.renderList env.listPlayers, Event.clearInputs] ∧
    (submitAction env dom).1.main = (renderAllPlayers env.listPlayers dom).main ∧
    (submitAction env dom).1.form.nameVal = "" ∧
    (submitAction env dom).1.form.breedVal = "" ∧
    (submitAction env dom).1.form.imageUrlVal = "" :=
  ⟨rfl, rfl, rfl, rfl, rfl⟩

/-- Claim C9: every call to `renderNewPlayerForm` registers one more submit
listener without removing previous ones, so after `k` calls on a fresh form a
single form submission runs the handler body `k` times: `k` create calls,
`k` list fetches and `k` re-renders. -/
theorem renderNewPlayerForm_stacks_listeners (k : Nat) (env : ApiEnv) (dom : Dom)
    (h0 : dom.form.submitListeners = 0) :
    (renderNewPlayerForm^[k] dom).form.submitListeners = k ∧
    countEv isCreateEv (dispatchSubmit env (renderNewPlayerForm^[k] dom)).2 = k ∧
    countEv isListEv (dispatchSubmit env (renderNewPlayerForm^[k] dom)).2 = k ∧
    countEv isRenderEv (dispatchSubmit env (renderNewPlayerForm^[k] dom)).2 = k := by
  have hl : (renderNewPlayerForm^[k] dom).form.submitListeners = k := by
    rw [iterate_renderNewPlayerForm_listeners, h0]
    omega
  have hrun : ∀ (p : Event → Bool), (∀ d, countEv p (submitAction env d).2 = 1) →
      countEv p (dispatchSubmit env (renderNewPlayerForm^[k] dom)).2 = k := by
    intro p hp
    show countEv p (runListeners env (renderNewPlayerForm^[k] dom).form.submitListeners _).2 = k
    rw [hl]
    exact countEv_runListeners env p hp k _
  exact ⟨hl, hrun isCreateEv (fun d => rfl), hrun isListEv (fun d => rfl),
         hrun isRenderEv (fun d => rfl)⟩

/-- Witness for C9 at `k = 3` on a fresh document. -/
theorem renderNewPlayerForm_stacks_listeners_witness :
    ({ main := [], form := { nameVal := "", breedVal := "", imageUrlVal := "",
                             submitListeners := 0 } } : Dom).form.submitListeners = 0 ∧
    ((renderNewPlayerForm^[3]
        ({ main := [], form := { nameVal := "", breedVal := "", imageUrlVal := "",
                                 submitListeners := 0 } } : Dom)).form.submitListeners = 3 ∧
     countEv isCreateEv
       (dispatchSubmit { listPlayers := some [⟨1, "Rex", "Labrador", "http://x/rex.png"⟩] }
         (renderNewPlayerForm^[3]
           ({ main := [], form := { nameVal := "", breedVal := "", imageUrlVal := "",
                                    submitListeners := 0 } } : Dom))).2 = 3 ∧
     countEv isListEv
       (dispatchSubmit { listPlayers := some [⟨1, "Rex", "Labrador", "http://x/rex.png"⟩] }
         (renderNewPlayerForm^[3]
           ({ main := [], form := { nameVal := "", breedVal := "", imageUrlVal := "",
                                    submitListeners := 0 } } : Dom))).2 = 3 ∧
     countEv isRenderEv
       (dispatchSubmit { listPlayers := some [⟨1, "Rex", "Labrador", "http://x/rex.png"⟩] }
         (renderNewPlayerForm^[3]
           ({ main := [], form := { nameVal := "", breedVal := "", imageUrlVal := "",
                                    submitListeners := 0 } } : Dom))).2 = 3) :=
  ⟨rfl, renderNewPlayerForm_stacks_listeners 3 _ _ rfl⟩

/-- Claim C2: for every environment (hence for every transport or decoding
failure any step inside a `try` block produces), each of the four API client
operations either completes its `try` block and returns its value with no log
output, or catches the failure, logs its contextual message and returns
`undefined` — an exception never propagates to the caller. -/
theorem api_client_catches_all_failures (env : FetchEnv) (playerId : Int) (playerObj : JsValue) :
    ((∃ v, fetchAllPlayersBody env = Except.ok v ∧ fetchAllPlayers env = (v, [])) ∨
     (∃ e, fetchAllPlayersBody env = Except.error e ∧
        fetchAllPlayers env = (JsValue.undef, [fetchAllPlayersLog]))) ∧
    ((∃ v, fetchSinglePlayerBody playerId env = Except.ok v ∧
        fetchSinglePlayer playerId env = (v, [])) ∨
     (∃ e, fetchSinglePlayerBody playerId env = Except.error e ∧
        fetchSinglePlayer playerId env = (JsValue.undef, [fetchSinglePlayerLog playerId]))) ∧
    ((∃ v, addNewPlayerBody playerObj env = Except.ok v ∧
        addNewPlayer playerObj env = (v, [])) ∨
     (∃ e, addNewPlayerBody playerObj env = Except.error e ∧
        addNewPlayer playerObj env = (JsValue.undef, [addNewPlayerLog]))) ∧
    ((∃ r, env (removePlayerRequest playerId) = Except.ok r ∧
        removePlayer playerId env = (JsValue.undef, [])) ∨
     (∃ e, env (removePlayerRequest playerId) = Except.error e ∧
        removePlayer playerId env = (JsValue.undef, [removePlayerLog playerId]))) := by
  refine ⟨?_, ?_, ?_, ?_⟩
  · cases hb : fetchAllPlayersBody env with
    | ok v => exact Or.inl ⟨v, rfl, by simp [fetchAllPlayers, hb]⟩
    | error e => exact Or.inr ⟨e, rfl, by simp [fetchAllPlayers, hb]⟩
  · cases hb : fetchSinglePlayerBody playerId env with
    | ok v => exact Or.inl ⟨v, rfl, by simp [fetchSinglePlayer, hb]⟩
    | error e => exact Or.inr ⟨e, rfl, by simp [fetchSinglePlayer, hb]⟩
  · cases hb : addNewPlayerBody playerObj env with
    | ok v => exact Or.inl ⟨v, rfl, by simp [addNewPlayer, hb]⟩
    | error e => exact Or.inr ⟨e, rfl, by simp [addNewPlayer, hb]⟩
  · cases hb : env (removePlayerRequest playerId) with
    | ok r => exact Or.inl ⟨r, rfl, by simp [removePlayer, hb]⟩
    | error e => exact Or.inr ⟨e, rfl, by simp [removePlayer, hb]⟩

/-- Claim C7: `addNewPlayer` issues its request with method `POST`, the
JSON-serialization of its argument as body, and the
`Content-Type: application/json` header, and its `try` block consumes the
environment's answer to exactly that request; `removePlayer` issues its
request with method `DELETE` and the given id interpolated into the
request path. -/
theorem create_and_delete_request_shape (playerObj : JsValue) (playerId : Int) :
    (addNewPlayerRequest playerObj).method = "POST" ∧
    (addNewPlayerRequest playerObj).body = jsonStringify playerObj ∧
    ("Content-Type", "application/json") ∈ (addNewPlayerRequest playerObj).headers ∧
    (∀ env : FetchEnv, addNewPlayerBody playerObj env =
      (env (addNewPlayerRequest playerObj)).bind Response.jsonResult) ∧
    (removePlayerRequest playerId).method = "DELETE" ∧
    (removePlayerRequest playerId).url = API_URL ++ "/players/" ++ toString playerId :=
  ⟨rfl, rfl, by simp [addNewPlayerRequest], fun env => rfl, rfl, rfl⟩

/-- Claim C10: neither `fetchAllPlayers` nor `fetchSinglePlayer` inspects the
HTTP status code: on any response whose body decodes, the result is the same
for any two statuses, `fetchAllPlayers` returns `result.data.players` and
`fetchSinglePlayer` returns `result.data`; and a decoded body lacking the
`data` field yields an `undefined` result through the same catch path as a
network failure, never a distinguishable error. -/
theorem api_client_ignores_status (s s' : Nat) (jr : Except JsErr JsValue)
    (v d p w : JsValue) (playerId : Int)
    (hd : getProp v "data" = Except.ok d)
    (hp : getProp d "players" = Except.ok p)
    (hw : getProp w "data" = Except.ok JsValue.undef) :
    fetchAllPlayers (fun _ => Except.ok ⟨s, jr⟩) = fetchAllPlayers (fun _ => Except.ok ⟨s', jr⟩) ∧
    fetchSinglePlayer playerId (fun _ => Except.ok ⟨s, jr⟩) =
      fetchSinglePlayer playerId (fun _ => Except.ok ⟨s', jr⟩) ∧
    fetchAllPlayers (fun _ => Except.ok ⟨s, Except.ok v⟩) = (p, []) ∧
    fetchSinglePlayer playerId (fun _ => Except.ok ⟨s, Except.ok v⟩) = (d, []) ∧
    fetchAllPlayers (fun _ => Except.ok ⟨s, Except.ok w⟩) =
      (JsValue.undef, [fetchAllPlayersLog]) := by
  have hbAll : fetchAllPlayersBody (fun _ => Except.ok ⟨s, Except.ok v⟩) = Except.ok p := by
    show ((getProp v "data").bind fun x => getProp x "players") = Except.ok p
    rw [hd]
    exact hp
  have hbSingle : fetchSinglePlayerBody playerId (fun _ => Except.ok ⟨s, Except.ok v⟩) =
      Except.ok d := by
    show getProp v "data" = Except.ok d
    exact hd
  have hbMiss : fetchAllPlayersBody (fun _ => Except.ok ⟨s, Except.ok w⟩) =
      Except.error (JsErr.typeError "cannot read properties of undefined (reading players)") := by
    show ((getProp w "data").bind fun x => getProp x "players") = _
    rw [hw]
    rfl
  refine ⟨rfl, rfl, ?_, ?_, ?_⟩
  · simp [fetchAllPlayers, hbAll]
  · simp [fetchSinglePlayer, hbSingle]
  · simp [fetchAllPlayers, hbMiss]

/-- Witness for C10: a 404 and a 200 response with the same body give the same
results, a decoded body with `data.players` is passed through, and a decoded
body without `data` falls into the catch path. -/
theorem api_client_ignores_status_witness :
    getProp (JsValue.obj [("data", JsValue.obj [("players", JsValue.arr [])])]) "data"
      = Except.ok (JsValue.obj [("players", JsValue.arr [])]) ∧
    getProp (JsValue.obj [("players", JsValue.arr [])]) "players"
      = Except.ok (JsValue.arr []) ∧
    getProp (JsValue.obj [("message", JsValue.str "not found")]) "data"
      = Except.ok JsValue.undef ∧
    (fetchAllPlayers (fun _ => Except.ok ⟨404, Except.error (JsErr.decodeError "bad body")⟩) =
       fetchAllPlayers (fun _ => Except.ok ⟨200, Except.error (JsErr.decodeError "bad body")⟩) ∧
     fetchSinglePlayer 7 (fun _ => Except.ok ⟨404, Except.error (JsErr.decodeError "bad body")⟩) =
       fetchSinglePlayer 7 (fun _ => Except.ok ⟨200, Except.error (JsErr.decodeError "bad body")⟩) ∧
     fetchAllPlayers (fun _ => Except.ok
         ⟨404, Except.ok (JsValue.obj [("data", JsValue.obj [("players", JsValue.arr [])])])⟩) =
       (JsValue.arr [], []) ∧
     fetchSinglePlayer 7 (fun _ => Except.ok
         ⟨404, Except.ok (JsValue.obj [("data", JsValue.obj [("players", JsValue.arr [])])])⟩) =
       (JsValue.obj [("players", JsValue.arr [])], []) ∧
     fetchAllPlayers (fun _ => Except.ok
         ⟨404, Except.ok (JsValue.obj [("message", JsValue.str "not found")])⟩) =
       (JsValue.undef, [fetchAllPlayersLog])) :=
  ⟨rfl, rfl, rfl,
   api_client_ignores_status 404 200 (Except.error (JsErr.decodeError "bad body"))
     (JsValue.obj [("data", JsValue.obj [("players", JsValue.arr [])])])
     (JsValue.obj [("players", JsValue.arr [])])
     (JsValue.arr [])
     (JsValue.obj [("message", JsValue.str "not found")])
     7 rfl rfl rfl⟩

end PuppyBowl
